import Mathlib

/-!
Shallow embedding of ksniff's `pkg/cmd/sniff.go` (the Capture Orchestrator)
together with the environment behaviour its claims depend on.

Go conventions used throughout:
* a Go `error` value is `Option String` (`none` is the nil error);
* exit statuses are `Int` as in Go;
* the outcome of a remote exec / upload call (which the Go code receives from
  the `kube` package) is passed in explicitly as data, so the orchestrator's
  pure control flow can be stated and proved.
-/

namespace Ksniff

/-- A Go `error`: `none` is the nil error. -/
abbrev GoError := Option String

/-- `github.com/pkg/errors`' `Wrapf`: annotates `err` with a message.
Documented behaviour of the library: if `err` is nil, `Wrapf` returns nil. -/
def errorsWrapf (err : GoError) (msg : String) : GoError :=
  match err with
  | none => none
  | some e => some (msg ++ ": " ++ e)

/-- One Go `time.Second` in nanoseconds (`time.Duration` units). -/
def timeSecond : Nat := 1000000000

/-- The user-controlled fields of `SniffOptions` (sniff.go lines 28-42),
plus the rest-config timeout that `Complete` sets.  The kubernetes client
handles are environment, not data, and are elided. -/
structure SniffOptions where
  userSpecifiedPod : String
  userSpecifiedFilter : String
  userSpecifiedContainer : String
  userSpecifiedNamespace : String
  userSpecifiedOutputFile : String
  userSpecifiedLocalTcpdumpPath : String
  userSpecifiedRemoteTcpdumpPath : String
  restConfigTimeout : Nat
  deriving Repr, DecidableEq

/-- sniff.go line 26. -/
def tcpdumpRemotePath : String := "/tmp/static-tcpdump"

/-- sniff.go line 25. -/
def tcpdumpLocalPath : String := "/tcpdump-static"

/-- The timeout assignment in `Complete` (sniff.go line 106):
`o.restConfig.Timeout = 30 * time.Second`. -/
def Complete (o : SniffOptions) : SniffOptions :=
  { o with restConfigTimeout := 30 * timeSecond }

/-- What one `kube.PodExecuteCommand` call delivers back to the caller:
the returned `(exitCode, err)` pair plus whatever the remote process wrote
to the caller-supplied stdout/stderr sinks. -/
structure ExecOutcome where
  exitCode : Int
  err : GoError
  stdOutOutput : String
  stdErrOutput : String
  deriving Repr, DecidableEq

/-- What one `kube.PodUploadFile` call returns: `(exitCode, err)`. -/
structure UploadOutcome where
  exitCode : Int
  err : GoError
  deriving Repr, DecidableEq

/-- Substitution core of Go's `fmt.Sprintf` with a single `%s` verb: the
first `%s` of the format is replaced by the argument, verbatim — no quoting
or escaping of any kind. -/
def substPercentS (arg : List Char) : List Char → List Char
  | '%' :: 's' :: rest => arg ++ rest
  | c :: rest => c :: substPercentS arg rest
  | [] => []

/-- Go's `fmt.Sprintf` restricted to one `%s` verb and a string argument. -/
def goSprintfS (format arg : String) : String :=
  String.mk (substPercentS arg.data format.data)

/-- The remote argv built by `CheckIfTcpdumpExistOnPod` (sniff.go line 167):
`[]string{"/bin/sh", "-c", fmt.Sprintf("ls -alt %s", tcpdumpRemotePath)}`. -/
def probeCommand (tcpdumpRemotePath : String) : List String :=
  ["/bin/sh", "-c", goSprintfS "ls -alt %s" tcpdumpRemotePath]

/-- `CheckIfTcpdumpExistOnPod` (sniff.go lines 155-188), given the outcome of
its `kube.PodExecuteCommand` call.  Returns the Go `(bool, error)` pair. -/
def CheckIfTcpdumpExistOnPod (outcome : ExecOutcome) : Bool × GoError :=
  if outcome.err.isSome then
    (false, outcome.err)
  else if outcome.exitCode ≠ 0 then
    (false, none)
  else if outcome.stdErrOutput ≠ "" then
    (false, some "failed to check for tcpdump")
  else
    (true, none)

/-- `UploadTcpdumpIfMissing` (sniff.go lines 190-225), given the outcomes of
the probe exec and of the upload (the upload outcome is only consulted when
the code reaches `kube.PodUploadFile`).  Returns the Go error together with
a flag recording whether the upload call was reached. -/
def UploadTcpdumpIfMissing (probe : ExecOutcome) (upload : UploadOutcome) :
    GoError × Bool :=
  let checked := CheckIfTcpdumpExistOnPod probe
  if checked.2.isSome then
    (checked.2, false)
  else if checked.1 then
    (none, false)
  else
    ((if upload.err.isSome ∨ upload.exitCode ≠ 0 then
        errorsWrapf upload.err
          ("upload file command failed, exitCode: " ++ toString upload.exitCode)
      else none), true)

/-- The remote argv built by `ExecuteTcpdumpOnRemotePod` (sniff.go line 239):
`[]string{o.userSpecifiedRemoteTcpdumpPath, "-U", "-w", "-"}`. -/
def tcpdumpCommand (o : SniffOptions) : List String :=
  [o.userSpecifiedRemoteTcpdumpPath, "-U", "-w", "-"]

/-- `ExecuteTcpdumpOnRemotePod` (sniff.go lines 227-245): it calls
`kube.PodExecuteCommand` and discards both the exit code and the error;
the Go function has no return value. -/
def ExecuteTcpdumpOnRemotePod (_o : SniffOptions) (_captureOutcome : ExecOutcome) :
    Unit :=
  ()

/-- `Run` (sniff.go lines 247-287), with every environment interaction made
explicit: `probe`/`upload` feed `UploadTcpdumpIfMissing`; `createErr` is the
`os.Create` result in file mode; `stdinPipeErr` and `viewerRunErr` are the
`cmd.StdinPipe()` and `cmd.Run()` results in viewer mode; `captureOutcome`
is what the capture exec delivers (discarded by `ExecuteTcpdumpOnRemotePod`).
Returns `Run`'s Go error. -/
def Run (o : SniffOptions) (probe : ExecOutcome) (upload : UploadOutcome)
    (createErr : GoError) (stdinPipeErr : GoError) (viewerRunErr : GoError)
    (captureOutcome : ExecOutcome) : GoError :=
  let uploaded := UploadTcpdumpIfMissing probe upload
  if uploaded.1.isSome then
    uploaded.1
  else if o.userSpecifiedOutputFile ≠ "" then
    if createErr.isSome then
      createErr
    else
      let _ := ExecuteTcpdumpOnRemotePod o captureOutcome
      none
  else
    if stdinPipeErr.isSome then
      stdinPipeErr
    else
      let _ := ExecuteTcpdumpOnRemotePod o captureOutcome
      viewerRunErr

/-- Pod phases relevant to `Validate` (k8s `corev1.PodPhase`). -/
inductive PodPhase
  | pending
  | running
  | succeeded
  | failed
  | unknown
  deriving Repr, DecidableEq

/-- Printed form of a phase, as interpolated into the error message. -/
def PodPhase.show : PodPhase → String
  | .pending => "Pending"
  | .running => "Running"
  | .succeeded => "Succeeded"
  | .failed => "Failed"
  | .unknown => "Unknown"

/-- The slice of the pod object that `Validate` reads: its phase and the
names of its spec's containers. -/
structure Pod where
  phase : PodPhase
  containerNames : List String
  deriving Repr, DecidableEq

/-- `Validate` (sniff.go lines 124-153).  `currentContext` is
`o.rawConfig.CurrentContext`; `podLookup` is the result of the
`Pods(ns).Get(pod)` call (`.error e` when the API returned error `e`,
e.g. the pod does not exist).  Returns the Go error together with the
options as mutated by the container-defaulting step. -/
def Validate (o : SniffOptions) (currentContext : String)
    (podLookup : Except String Pod) : GoError × SniffOptions :=
  if currentContext.length = 0 then
    (some "context doesn't exist", o)
  else if o.userSpecifiedNamespace = "" then
    (some "namespace value is empty should be custom or default", o)
  else
    match podLookup with
    | .error e => (some e, o)
    | .ok pod =>
      if pod.phase = .succeeded ∨ pod.phase = .failed then
        (some ("cannot sniff on a container in a completed pod; current phase is "
          ++ pod.phase.show), o)
      else
        match pod.containerNames with
        | [] => (some "no containers in specified pod", o)
        | first :: _ =>
          if o.userSpecifiedContainer = "" then
            (none, { o with userSpecifiedContainer := first })
          else
            (none, o)

/-- The `RunE` sequencing of `NewCmdSniff` (sniff.go lines 60-72):
`Complete`, then `Validate`, then `Run`, stopping at the first error.
The remote command channels are only ever opened inside `Run`, so a
`Validate` error means `Run`'s outcome is never consulted. -/
def RunE (completeErr : GoError) (validateErr : GoError) (runErr : GoError) :
    GoError :=
  if completeErr.isSome then completeErr
  else if validateErr.isSome then validateErr
  else runErr

/-- Modelled from the spec: the `kube` package (the Remote Command Channel
implementation this repository's orchestrator calls) is not under `src/`.
Per the spec's concurrency section, "a best-effort timeout applies only to
the initial connection phase ... the live-capture stream itself is
intentionally unbounded (no timeout)": the configuration used for an exec
request carries the client's bounded connection-phase timeout and no
deadline on the stream itself. -/
structure ExecStreamConfig where
  connectionPhaseTimeout : Nat
  streamDeadline : Option Nat
  deriving Repr, DecidableEq

/-- Modelled from the spec: the configuration the capture exec request runs
under — the connection phase inherits the client's configured timeout, and
no overall request deadline is imposed on the live stream. -/
def captureExecConfig (o : SniffOptions) : ExecStreamConfig :=
  { connectionPhaseTimeout := o.restConfigTimeout
    streamDeadline := none }

/-- Modelled from the spec: the remote-side state the provisioning claims
quantify over — whether the capture binary is present at the remote path.
The `kube` package's transport is not under `src/`. -/
structure World where
  present : Bool
  deriving Repr, DecidableEq

/-- Modelled from the spec: a clean probe against a faithful remote reports
presence accurately — exit status 0 with empty error output when the binary
is present, non-zero exit when it is absent (spec §4.4 step 1 and the
"Upload integrity" property). -/
def probeOutcome (w : World) : ExecOutcome :=
  { exitCode := if w.present then 0 else 1
    err := none
    stdOutOutput := if w.present then "-rwxr-xr-x static-tcpdump" else ""
    stdErrOutput := "" }

/-- Modelled from the spec: a successful upload (nil error, exit status 0)
materialises the binary at the remote path ("Upload integrity"); any other
upload outcome leaves the remote state unchanged. -/
def uploadStep (w : World) (u : UploadOutcome) : World :=
  if u.err = none ∧ u.exitCode = 0 then { present := true } else w

/-- One orchestrator provisioning pass against remote state `w`, where the
upload call (if reached) returns `u`: runs `UploadTcpdumpIfMissing` on the
outcome of a clean probe of `w`, returning the next remote state, whether
the upload was invoked, and the Go error. -/
def provisionRun (w : World) (u : UploadOutcome) : World × Bool × GoError :=
  let r := UploadTcpdumpIfMissing (probeOutcome w) u
  (if r.2 then uploadStep w u else w, r.2, r.1)

/-- A concrete option set: file-output mode, non-empty filter, defaults for
the binary paths, the timeout `Complete` configures. -/
def sampleOptions : SniffOptions :=
  { userSpecifiedPod := "web-1"
    userSpecifiedFilter := "port 80"
    userSpecifiedContainer := "hello-minikube"
    userSpecifiedNamespace := "default"
    userSpecifiedOutputFile := "out.pcap"
    userSpecifiedLocalTcpdumpPath := tcpdumpLocalPath
    userSpecifiedRemoteTcpdumpPath := tcpdumpRemotePath
    restConfigTimeout := 30 * timeSecond }

/-- A probe outcome reporting the binary present: exit 0, clean error stream. -/
def probePresent : ExecOutcome :=
  { exitCode := 0
    err := none
    stdOutOutput := "-rwxr-xr-x 1 root root static-tcpdump"
    stdErrOutput := "" }

/-- A probe outcome reporting the binary absent: exit 1, nil error. -/
def probeAbsent : ExecOutcome :=
  { exitCode := 1, err := none, stdOutOutput := "", stdErrOutput := "" }

/-- An exec outcome reporting a transport failure (non-nil error). -/
def transportFailure : ExecOutcome :=
  { exitCode := 1
    err := some "error dialing backend: connection reset"
    stdOutOutput := ""
    stdErrOutput := "" }

end Ksniff

/-! Theorems settling the claims. -/

namespace Ksniff

/-- Helper for C10: substituting a path into the probe's format string is
plain unquoted concatenation after the fixed prefix. -/
lemma goSprintfS_ls_alt (p : String) :
    goSprintfS "ls -alt %s" p = "ls -alt " ++ p := by
  obtain ⟨pd⟩ := p
  show String.mk ("ls -alt ".data ++ (pd ++ [])) = String.mk ("ls -alt ".data ++ pd)
  rw [List.append_nil]

/-- C1: for every option set, the remote argv launched on the
BinaryReady → Capturing transition is exactly the configured remote
capture-binary path followed by "-U" "-w" "-" (unbuffered output to its own
standard output); the argv is independent of the filter expression, and at a
concrete invocation whose filter is "port 80" the filter does not occur in
the argv. -/
theorem capture_argv_omits_filter (o : SniffOptions) (f : String) :
    tcpdumpCommand o = [o.userSpecifiedRemoteTcpdumpPath, "-U", "-w", "-"] ∧
    tcpdumpCommand { o with userSpecifiedFilter := f } = tcpdumpCommand o ∧
    sampleOptions.userSpecifiedFilter = "port 80" ∧
    tcpdumpCommand sampleOptions = ["/tmp/static-tcpdump", "-U", "-w", "-"] ∧
    "port 80" ∉ tcpdumpCommand sampleOptions := by
  refine ⟨rfl, rfl, rfl, rfl, ?_⟩
  decide

/-- C2: failing input — the probe reports the binary absent (exit 1, nil
error) and `kube.PodUploadFile` returns exit status 1 with a nil error:
`UploadTcpdumpIfMissing` returns a nil error (pkg/errors' Wrapf of a nil
error is nil), and `Run` proceeds past provisioning to launch the capture,
returning nil. -/
theorem upload_nonzero_exit_swallowed :
    CheckIfTcpdumpExistOnPod probeAbsent = (false, none) ∧
    UploadTcpdumpIfMissing probeAbsent { exitCode := 1, err := none } = (none, true) ∧
    Run sampleOptions probeAbsent { exitCode := 1, err := none } none none none
      transportFailure = none := by
  refine ⟨rfl, rfl, rfl⟩

/-- C3: failing input — file-output mode where the remote capture exec
reports a transport failure: `Run` still returns nil, because
`ExecuteTcpdumpOnRemotePod` discards both the exit code and the error of
`kube.PodExecuteCommand`. -/
theorem run_file_mode_swallows_relay_failure :
    sampleOptions.userSpecifiedOutputFile = "out.pcap" ∧
    transportFailure.err = some "error dialing backend: connection reset" ∧
    Run sampleOptions probePresent { exitCode := 0, err := none } none none none
      transportFailure = none := by
  refine ⟨rfl, rfl, rfl⟩

/-- C4 counterexample: at a probe outcome with zero exit status and non-empty
error-stream output (a ProbeError), the orchestrator does NOT proceed to the
upload: `UploadTcpdumpIfMissing` returns the probe error and the upload call
is never reached. -/
theorem probe_error_upload_counterexample :
    UploadTcpdumpIfMissing
      { exitCode := 0
        err := none
        stdOutOutput := ""
        stdErrOutput := "ls: cannot access /tmp/static-tcpdump" }
      { exitCode := 0, err := none }
      = (some "failed to check for tcpdump", false) := rfl

/-- C4 amended: an inconclusive probe (nil transport error, zero exit status,
non-empty error-stream output) aborts the invocation: `UploadTcpdumpIfMissing`
returns the probe failure error without invoking the upload, and `Run` aborts
with that error. -/
theorem probe_error_aborts_invocation (probe : ExecOutcome)
    (upload : UploadOutcome) (o : SniffOptions)
    (createErr stdinPipeErr viewerRunErr : GoError) (capture : ExecOutcome)
    (herr : probe.err = none) (hexit : probe.exitCode = 0)
    (hstderr : probe.stdErrOutput ≠ "") :
    UploadTcpdumpIfMissing probe upload
      = (some "failed to check for tcpdump", false) ∧
    Run o probe upload createErr stdinPipeErr viewerRunErr capture
      = some "failed to check for tcpdump" := by
  have h : UploadTcpdumpIfMissing probe upload
      = (some "failed to check for tcpdump", false) := by
    simp [UploadTcpdumpIfMissing, CheckIfTcpdumpExistOnPod, herr, hexit, hstderr]
  exact ⟨h, by simp [Run, h]⟩

/-- Witness for C4's amended theorem at a concrete ProbeError outcome. -/
theorem probe_error_aborts_invocation_witness :
    UploadTcpdumpIfMissing
      { exitCode := 0, err := none, stdOutOutput := "", stdErrOutput := "denied" }
      { exitCode := 0, err := none }
      = (some "failed to check for tcpdump", false) ∧
    Run sampleOptions
      { exitCode := 0, err := none, stdOutOutput := "", stdErrOutput := "denied" }
      { exitCode := 0, err := none } none none none probeAbsent
      = some "failed to check for tcpdump" :=
  probe_error_aborts_invocation
    { exitCode := 0, err := none, stdOutOutput := "", stdErrOutput := "denied" }
    { exitCode := 0, err := none } sampleOptions none none none probeAbsent
    rfl rfl (by decide)

/-- C5: `Complete` sets the client timeout to exactly 30 seconds (bounded,
tens of seconds); that value is the connection-phase timeout of the capture
exec configuration, while the capture stream itself carries no deadline. -/
theorem capture_stream_has_no_deadline (o : SniffOptions) :
    (Complete o).restConfigTimeout = 30 * timeSecond ∧
    (captureExecConfig (Complete o)).connectionPhaseTimeout = 30 * timeSecond ∧
    (captureExecConfig (Complete o)).streamDeadline = none :=
  ⟨rfl, rfl, rfl⟩

/-- C6 counterexample: a running pod whose only container is "web", validated
with the explicitly named container "db": `Validate` returns a nil error even
though "db" is not a container of the pod. -/
theorem named_container_absent_not_validated :
    (Validate { sampleOptions with userSpecifiedContainer := "db" } "minikube"
      (.ok { phase := .running, containerNames := ["web"] })).1 = none ∧
    "db" ∉ ["web"] := by
  refine ⟨rfl, ?_⟩
  decide

end Ksniff


namespace Ksniff

/-- C6 amended: validation before the first orchestrator state fails fast
with a distinct immediate error when the pod lookup fails (pod does not
exist), when the pod is in a terminal phase, and when the pod has no
containers; when no container is named the pod's first container is
selected; and a `Validate` error short-circuits `RunE`, so `Run` — the only
place remote command channels are opened — is never consulted.  An
explicitly named container absent from the pod is NOT checked by `Validate`
(see the counterexample). -/
theorem validate_fail_fast (o : SniffOptions) (ctx e : String)
    (podTerminal podEmpty podOk : Pod) (first : String) (rest : List String)
    (ph : PodPhase) (r : GoError)
    (hctx : ctx.length ≠ 0) (hns : o.userSpecifiedNamespace ≠ "")
    (hT : podTerminal.phase = .succeeded ∨ podTerminal.phase = .failed)
    (hEp : ¬(podEmpty.phase = .succeeded ∨ podEmpty.phase = .failed))
    (hE : podEmpty.containerNames = [])
    (hOp : ¬(podOk.phase = .succeeded ∨ podOk.phase = .failed))
    (hO : podOk.containerNames = first :: rest)
    (hco : o.userSpecifiedContainer = "") :
    (Validate o ctx (.error e)).1 = some e ∧
    (Validate o ctx (.ok podTerminal)).1
      = some ("cannot sniff on a container in a completed pod; current phase is "
          ++ podTerminal.phase.show) ∧
    (Validate o ctx (.ok podEmpty)).1 = some "no containers in specified pod" ∧
    Validate o ctx (.ok podOk) = (none, { o with userSpecifiedContainer := first }) ∧
    "cannot sniff on a container in a completed pod; current phase is " ++ ph.show
      ≠ "no containers in specified pod" ∧
    RunE none ((Validate o ctx (.error e)).1) r = some e := by
  have h1 : (Validate o ctx (.error e)).1 = some e := by
    simp [Validate, hctx, hns]
  refine ⟨h1, ?_, ?_, ?_, ?_, ?_⟩
  · rcases hT with h | h <;> simp [Validate, hctx, hns, h]
  · simp [Validate, hctx, hns, hEp, hE]
  · simp [Validate, hctx, hns, hOp, hO, hco]
  · cases ph <;> decide
  · rw [h1]
    simp [RunE]

/-- Witness for C6's amended theorem at concrete pods. -/
theorem validate_fail_fast_witness :
    (Validate { sampleOptions with userSpecifiedContainer := "" } "minikube"
      (.error "pods web-1 not found")).1 = some "pods web-1 not found" ∧
    (Validate { sampleOptions with userSpecifiedContainer := "" } "minikube"
      (.ok { phase := .succeeded, containerNames := ["web"] })).1
      = some ("cannot sniff on a container in a completed pod; current phase is "
          ++ PodPhase.show .succeeded) ∧
    (Validate { sampleOptions with userSpecifiedContainer := "" } "minikube"
      (.ok { phase := .running, containerNames := [] })).1
      = some "no containers in specified pod" ∧
    Validate { sampleOptions with userSpecifiedContainer := "" } "minikube"
      (.ok { phase := .running, containerNames := ["web", "sidecar"] })
      = (none, { sampleOptions with userSpecifiedContainer := "web" }) ∧
    "cannot sniff on a container in a completed pod; current phase is "
      ++ PodPhase.show .running ≠ "no containers in specified pod" ∧
    RunE none ((Validate { sampleOptions with userSpecifiedContainer := "" }
      "minikube" (.error "pods web-1 not found")).1) none
      = some "pods web-1 not found" :=
  validate_fail_fast { sampleOptions with userSpecifiedContainer := "" }
    "minikube" "pods web-1 not found"
    { phase := .succeeded, containerNames := ["web"] }
    { phase := .running, containerNames := [] }
    { phase := .running, containerNames := ["web", "sidecar"] }
    "web" ["sidecar"] .running none
    (by decide) (by decide) (Or.inl rfl) (by decide) rfl (by decide) rfl rfl

/-- C7: the presence probe classifies its result exactly as the claim states:
zero exit with empty error output and nil transport error is present (true,
nil); non-zero exit is absent (false, nil); non-empty error output with zero
exit is a probe failure returned as an error, distinct from the absent
result; a transport error from the channel is returned as an error. -/
theorem probe_classification (o1 o2 o3 o4 : ExecOutcome) (e : String)
    (h1e : o1.err = none) (h1x : o1.exitCode = 0) (h1s : o1.stdErrOutput = "")
    (h2e : o2.err = none) (h2x : o2.exitCode ≠ 0)
    (h3e : o3.err = none) (h3x : o3.exitCode = 0) (h3s : o3.stdErrOutput ≠ "")
    (h4 : o4.err = some e) :
    CheckIfTcpdumpExistOnPod o1 = (true, none) ∧
    CheckIfTcpdumpExistOnPod o2 = (false, none) ∧
    CheckIfTcpdumpExistOnPod o3 = (false, some "failed to check for tcpdump") ∧
    CheckIfTcpdumpExistOnPod o3 ≠ (false, none) ∧
    CheckIfTcpdumpExistOnPod o4 = (false, some e) := by
  refine ⟨?_, ?_, ?_, ?_, ?_⟩ <;>
    simp [CheckIfTcpdumpExistOnPod, h1e, h1x, h1s, h2e, h2x, h3e, h3x, h3s, h4]

/-- Witness for C7 at four concrete probe outcomes. -/
theorem probe_classification_witness :
    CheckIfTcpdumpExistOnPod probePresent = (true, none) ∧
    CheckIfTcpdumpExistOnPod probeAbsent = (false, none) ∧
    CheckIfTcpdumpExistOnPod
      { exitCode := 0, err := none, stdOutOutput := "", stdErrOutput := "denied" }
      = (false, some "failed to check for tcpdump") ∧
    CheckIfTcpdumpExistOnPod
      { exitCode := 0, err := none, stdOutOutput := "", stdErrOutput := "denied" }
      ≠ (false, none) ∧
    CheckIfTcpdumpExistOnPod transportFailure
      = (false, some "error dialing backend: connection reset") :=
  probe_classification probePresent probeAbsent
    { exitCode := 0, err := none, stdOutOutput := "", stdErrOutput := "denied" }
    transportFailure "error dialing backend: connection reset"
    rfl rfl rfl rfl (by decide) rfl rfl (by decide) rfl

end Ksniff


namespace Ksniff

/-- C8: provisioning is idempotent.  The upload is invoked iff the probe
reports the binary absent (false with nil error); a pass whose probe of the
remote state reports present performs no upload; after one pass with a
successful upload the binary is present, the second pass's probe reports it
present, the second pass performs no upload, and two sequential passes
perform at most one upload in total. -/
theorem provisioning_idempotent (probe : ExecOutcome)
    (upload u1 u2 : UploadOutcome) (wPresent w : World)
    (hp : wPresent.present = true)
    (h1e : u1.err = none) (h1x : u1.exitCode = 0) :
    ((UploadTcpdumpIfMissing probe upload).2 = true
      ↔ CheckIfTcpdumpExistOnPod probe = (false, none)) ∧
    CheckIfTcpdumpExistOnPod (probeOutcome wPresent) = (true, none) ∧
    (provisionRun wPresent u1).2.1 = false ∧
    ((provisionRun w u1).1).present = true ∧
    CheckIfTcpdumpExistOnPod (probeOutcome (provisionRun w u1).1) = (true, none) ∧
    (provisionRun (provisionRun w u1).1 u2).2.1 = false ∧
    (if (provisionRun w u1).2.1 then 1 else 0)
      + (if (provisionRun (provisionRun w u1).1 u2).2.1 then 1 else 0) ≤ 1 := by
  have hpres1 : CheckIfTcpdumpExistOnPod (probeOutcome wPresent) = (true, none) := by
    simp [CheckIfTcpdumpExistOnPod, probeOutcome, hp]
  have hnoop : (provisionRun wPresent u1).2.1 = false := by
    simp [provisionRun, UploadTcpdumpIfMissing, hpres1]
  have hafter : ((provisionRun w u1).1).present = true := by
    obtain ⟨wp⟩ := w
    cases wp <;>
      simp [provisionRun, UploadTcpdumpIfMissing, CheckIfTcpdumpExistOnPod,
        probeOutcome, uploadStep, h1e, h1x]
  have hsecondprobe :
      CheckIfTcpdumpExistOnPod (probeOutcome (provisionRun w u1).1) = (true, none) := by
    simp [CheckIfTcpdumpExistOnPod, probeOutcome, hafter]
  have hnosecond : ∀ w' : World, w'.present = true →
      (provisionRun w' u2).2.1 = false := by
    intro w' h
    simp [provisionRun, UploadTcpdumpIfMissing, CheckIfTcpdumpExistOnPod,
      probeOutcome, h]
  refine ⟨?_, hpres1, hnoop, hafter, hsecondprobe, hnosecond _ hafter, ?_⟩
  · rcases hcp : CheckIfTcpdumpExistOnPod probe with ⟨b, errv⟩
    cases errv <;> cases b <;> simp [UploadTcpdumpIfMissing, hcp]
  · simp only [hnosecond _ hafter]
    cases hq : (provisionRun w u1).2.1 <;> simp [hq]

/-- Witness for C8: the binary initially absent, both uploads succeed. -/
theorem provisioning_idempotent_witness :
    ((UploadTcpdumpIfMissing probeAbsent { exitCode := 0, err := none }).2 = true
      ↔ CheckIfTcpdumpExistOnPod probeAbsent = (false, none)) ∧
    CheckIfTcpdumpExistOnPod (probeOutcome { present := true }) = (true, none) ∧
    (provisionRun { present := true } { exitCode := 0, err := none }).2.1 = false ∧
    ((provisionRun { present := false } { exitCode := 0, err := none }).1).present
      = true ∧
    CheckIfTcpdumpExistOnPod (probeOutcome
      (provisionRun { present := false } { exitCode := 0, err := none }).1)
      = (true, none) ∧
    (provisionRun
      (provisionRun { present := false } { exitCode := 0, err := none }).1
      { exitCode := 0, err := none }).2.1 = false ∧
    (if (provisionRun { present := false } { exitCode := 0, err := none }).2.1
        then 1 else 0)
      + (if (provisionRun
          (provisionRun { present := false } { exitCode := 0, err := none }).1
          { exitCode := 0, err := none }).2.1 then 1 else 0) ≤ 1 :=
  provisioning_idempotent probeAbsent { exitCode := 0, err := none }
    { exitCode := 0, err := none } { exitCode := 0, err := none }
    { present := true } { present := false } rfl rfl rfl

/-- C9: in viewer mode (no output file), when provisioning and the stdin
pipe succeed, `Run` returns exactly the viewer process's own run result; and
`Run`'s result never depends on the capture relay's outcome, so a relay
error is never surfaced as the invocation's top-level failure. -/
theorem viewer_mode_result_is_viewers (o : SniffOptions) (probe : ExecOutcome)
    (upload : UploadOutcome) (createErr stdinPipeErr viewerRunErr : GoError)
    (capture1 capture2 : ExecOutcome)
    (hview : o.userSpecifiedOutputFile = "")
    (hprov : (UploadTcpdumpIfMissing probe upload).1 = none) :
    Run o probe upload createErr none viewerRunErr capture1 = viewerRunErr ∧
    Run o probe upload createErr stdinPipeErr viewerRunErr capture1
      = Run o probe upload createErr stdinPipeErr viewerRunErr capture2 := by
  constructor
  · simp [Run, hprov, hview]
  · rfl

/-- Witness for C9: the viewer exits with an error while the relay sees a
transport failure, and the relay outcome does not change the result. -/
theorem viewer_mode_result_is_viewers_witness :
    Run { sampleOptions with userSpecifiedOutputFile := "" } probePresent
      { exitCode := 0, err := none } none none (some "exit status 1")
      transportFailure = some "exit status 1" ∧
    Run { sampleOptions with userSpecifiedOutputFile := "" } probePresent
      { exitCode := 0, err := none } none none (some "exit status 1")
      transportFailure
      = Run { sampleOptions with userSpecifiedOutputFile := "" } probePresent
        { exitCode := 0, err := none } none none (some "exit status 1")
        probeAbsent :=
  viewer_mode_result_is_viewers { sampleOptions with userSpecifiedOutputFile := "" }
    probePresent { exitCode := 0, err := none } none none (some "exit status 1")
    transportFailure probeAbsent rfl rfl

/-- C10: for every remote binary path p, the presence probe's remote argv is
exactly ["/bin/sh", "-c", "ls -alt " ++ p]: the path is interpolated into
the shell command line unquoted and unescaped, as the concrete
metacharacter example shows. -/
theorem probe_argv_interpolates_path (p : String) :
    probeCommand p = ["/bin/sh", "-c", "ls -alt " ++ p] ∧
    probeCommand "/tmp/x; id" = ["/bin/sh", "-c", "ls -alt /tmp/x; id"] := by
  constructor
  · simp [probeCommand, goSprintfS_ls_alt]
  · simp [probeCommand, goSprintfS_ls_alt]

end Ksniff
